import Mathlib

/-!
Verification development for the LabLoop repository.

The embedding covers:
* the data model of `types.ts` (`ExperimentModel`, `ExperimentPlan`, statuses);
* `generateExperimentPlan` of `services/geminiService.ts`: the retry loop is
  modelled over an abstract oracle `results : Nat → AttemptOutcome` giving the
  outcome of each remote attempt (the network call itself is external input);
  the function returns a trace recording which attempts ran, which backoff
  waits were performed, and the final outcome;
* the winner-fallback rule of `components/ResultsView.tsx`;
* the simulation of `App.tsx`: `updateExperimentState`, the checkpoint
  schedule built by `runSimulation` (`delayOffset` bookkeeping), and the
  checkpoint callbacks as transformers of an explicit `SimState`; the
  `Math.random()` jitter draws are passed in as rational parameters.
-/

namespace LabLoop

/-- The `ExperimentStatus` enum of `types.ts` (the App-level phase). -/
inductive AppStatus
| IDLE
| PLANNING
| EXECUTING
| COMPLETED
| ERROR
deriving DecidableEq, Repr

/-- The metric triple `{accuracy, latencyMs, modelSizeMb}` of `types.ts`.
TypeScript numbers carry exact decimal literals here, so we embed them as
rationals. -/
structure Metrics where
  accuracy : ℚ
  latencyMs : ℚ
  modelSizeMb : ℚ
deriving DecidableEq, Repr

/-- Per-experiment status union `pending | running | completed`. -/
inductive ExpStatus
| pending
| running
| completed
deriving DecidableEq, Repr

/-- The `ExperimentModel` interface of `types.ts`; `liveMetrics` is optional there
(`liveMetrics?`), hence `Option`. -/
structure ExperimentModel where
  id : String
  name : String
  description : String
  simulatedMetrics : Metrics
  liveMetrics : Option Metrics
  status : ExpStatus
  progress : Nat
deriving DecidableEq, Repr

/-- The `ExperimentPlan` interface of `types.ts`. -/
structure ExperimentPlan where
  planTitle : String
  goalAnalysis : String
  experiments : List ExperimentModel
  recommendedWinnerId : String
  summary : String
deriving DecidableEq, Repr

/-! ## geminiService.ts -/

/-- One experiment as parsed from the model response (the fields required by
the response schema in `generateExperimentPlan`). -/
structure ParsedExperiment where
  id : String
  name : String
  description : String
  simulatedMetrics : Metrics
deriving DecidableEq, Repr

/-- A successfully parsed response payload (the response schema's top-level
object). -/
structure ParsedPlan where
  planTitle : String
  goalAnalysis : String
  experiments : List ParsedExperiment
  recommendedWinnerId : String
  summary : String
deriving DecidableEq, Repr

/-- Outcome of one attempt of the remote call: either some failure (network
error, empty response, JSON parse error — all surface as a thrown error whose
message we keep) or a parsed payload. -/
inductive AttemptOutcome
| failure (err : String)
| success (data : ParsedPlan)
deriving DecidableEq, Repr

/-- The map `exp => ({ ...exp, status: 'pending', progress: 0, liveMetrics: zeros })`
of `geminiService.ts` lines 79–88. -/
def normalizeExperiment (exp : ParsedExperiment) : ExperimentModel :=
  { id := exp.id
    name := exp.name
    description := exp.description
    simulatedMetrics := exp.simulatedMetrics
    status := ExpStatus.pending
    progress := 0
    liveMetrics := some { accuracy := 0, latencyMs := 0, modelSizeMb := 0 } }

/-- The `return { ...data, experiments: data.experiments.map(...) }` of
`geminiService.ts` lines 77–89. -/
def normalizePlan (data : ParsedPlan) : ExperimentPlan :=
  { planTitle := data.planTitle
    goalAnalysis := data.goalAnalysis
    experiments := data.experiments.map normalizeExperiment
    recommendedWinnerId := data.recommendedWinnerId
    summary := data.summary }

/-- Final outcome of `generateExperimentPlan`: resolve or reject. -/
inductive GenOutcome
| ok (plan : ExperimentPlan)
| error (err : String)
deriving DecidableEq, Repr

/-- Observable trace of one `generateExperimentPlan` call: the indices of the
attempts actually made, the backoff waits (ms) performed between attempts, and
the final outcome. -/
structure GenTrace where
  attempts : List Nat
  waits : List Nat
  outcome : GenOutcome
deriving DecidableEq, Repr

/-- The constant `maxRetries = 3` of `geminiService.ts`. -/
def maxRetries : Nat := 3

/-- The `for (let attempt = 0; attempt <= maxRetries; attempt++)` loop of
`geminiService.ts` lines 29–102, with `remaining` counting the loop
iterations still available (so `remaining = maxRetries + 1 - attempt`).
On failure with retries left it waits `2 ^ attempt * 1000` ms and continues;
on failure at the last attempt the loop ends and line 104 throws the last
error; the fallback message of line 104 is reachable only if the loop body
never ran. -/
def genAux (results : Nat → AttemptOutcome) : Nat → Nat → GenTrace
  | _, 0 =>
    { attempts := []
      waits := []
      outcome := GenOutcome.error ("Failed to generate experiment plan after multiple attempts.") }
  | attempt, remaining + 1 =>
    match results attempt with
    | AttemptOutcome.success data =>
      { attempts := [attempt], waits := [], outcome := GenOutcome.ok (normalizePlan data) }
    | AttemptOutcome.failure err =>
      if remaining = 0 then
        { attempts := [attempt], waits := [], outcome := GenOutcome.error err }
      else
        let rest := genAux results (attempt + 1) remaining
        { attempts := attempt :: rest.attempts
          waits := 2 ^ attempt * 1000 :: rest.waits
          outcome := rest.outcome }

/-- The function `generateExperimentPlan` of `geminiService.ts`, abstracted over the
per-attempt outcome oracle. -/
def generateExperimentPlan (results : Nat → AttemptOutcome) : GenTrace :=
  genAux results 0 (maxRetries + 1)

/-- The `if (!apiKey) throw new Error("API Key is missing")` guard of
`geminiService.ts` lines 7–10. -/
def generateExperimentPlanWithKey (apiKeyPresent : Bool) (results : Nat → AttemptOutcome) :
    GenTrace :=
  if apiKeyPresent then generateExperimentPlan results
  else { attempts := [], waits := [], outcome := GenOutcome.error ("API Key is missing") }

/-! ## ResultsView.tsx -/

/-- The expression `plan.experiments.find(e => e.id === plan.recommendedWinnerId) ||
plan.experiments[0]` of `ResultsView.tsx` line 10; `none` is JavaScript's
`undefined` (only reachable when `experiments` is empty). -/
def winnerOf (plan : ExperimentPlan) : Option ExperimentModel :=
  (plan.experiments.find? (fun e => e.id == plan.recommendedWinnerId)).orElse
    (fun _ => plan.experiments.head?)

/-! ## App.tsx: updateExperimentState -/

/-- The `updates` argument of `updateExperimentState` (App.tsx lines 76–83):
each field may be absent. Callers pass object literals, so an absent field is
a missing key and the spread keeps the previous value. -/
structure ExpUpdates where
  progress : Option Nat
  status : Option ExpStatus
  liveMetrics : Option Metrics
deriving DecidableEq, Repr

/-- The spread `{ ...e, ...updates, liveMetrics: updates.liveMetrics || e.liveMetrics }`
of App.tsx lines 88–92. -/
def applyUpdates (updates : ExpUpdates) (e : ExperimentModel) : ExperimentModel :=
  { e with
    progress := updates.progress.getD e.progress
    status := updates.status.getD e.status
    liveMetrics := updates.liveMetrics.orElse (fun _ => e.liveMetrics) }

/-- The helper `updateExperimentState` of App.tsx lines 76–97: map over the experiments,
patching exactly the entries whose `id` matches. -/
def updateExperimentState (expId : String) (updates : ExpUpdates) (plan : ExperimentPlan) :
    ExperimentPlan :=
  { plan with
    experiments := plan.experiments.map (fun e =>
      if e.id = expId then applyUpdates updates e else e) }

/-! ## App.tsx: the checkpoint schedule -/

/-- What a scheduled timer will do: run checkpoint `cp` (0–7) of experiment
`expIdx`, or the finalize block of App.tsx lines 211–224. -/
inductive SimEventKind
| checkpoint (expIdx : Nat) (cp : Nat)
| finalize
deriving DecidableEq, Repr

/-- One entry of `timeoutIds`: a timer with its delay (ms from the start of
`runSimulation`) and what its callback does. -/
structure ScheduledTimeout where
  time : Nat
  kind : SimEventKind
deriving DecidableEq, Repr

/-- The scheduling loop of `runSimulation` (App.tsx lines 111–224): the
`delayOffset` accumulator starts at the caller's value, each of the 8
checkpoints is scheduled at the current offset, and the offset then grows by
800, 1200, 1000, 1500, 1200, 1200, 1500 and finally 500 before the next
experiment; after the last experiment the finalize timer is scheduled. -/
def simScheduleAux : Nat → Nat → Nat → List ScheduledTimeout
  | 0, _, delayOffset => [{ time := delayOffset, kind := SimEventKind.finalize }]
  | remaining + 1, i, delayOffset =>
    let o0 := delayOffset
    let o1 := o0 + 800
    let o2 := o1 + 1200
    let o3 := o2 + 1000
    let o4 := o3 + 1500
    let o5 := o4 + 1200
    let o6 := o5 + 1200
    let o7 := o6 + 1500
    { time := o0, kind := SimEventKind.checkpoint i 0 } ::
    { time := o1, kind := SimEventKind.checkpoint i 1 } ::
    { time := o2, kind := SimEventKind.checkpoint i 2 } ::
    { time := o3, kind := SimEventKind.checkpoint i 3 } ::
    { time := o4, kind := SimEventKind.checkpoint i 4 } ::
    { time := o5, kind := SimEventKind.checkpoint i 5 } ::
    { time := o6, kind := SimEventKind.checkpoint i 6 } ::
    { time := o7, kind := SimEventKind.checkpoint i 7 } ::
    simScheduleAux remaining (i + 1) (o7 + 500)

/-- The function `runSimulation` builds this full timer list for a plan with `numExperiments`
experiments; `let delayOffset = 1500` is the initial value (App.tsx
line 111). -/
def simSchedule (numExperiments : Nat) : List ScheduledTimeout :=
  simScheduleAux numExperiments 0 1500

/-- Base offset (ms) of experiment `i`'s first checkpoint: each experiment
block advances `delayOffset` by 8900 ms in total. -/
def expBase (i : Nat) : Nat := 1500 + i * 8900

/-- The eight checkpoint timers of one experiment, starting at `base`
(times written as the running sums of the source's `delayOffset` updates). -/
def expBlock (i base : Nat) : List ScheduledTimeout :=
  [{ time := base, kind := SimEventKind.checkpoint i 0 },
   { time := base + 800, kind := SimEventKind.checkpoint i 1 },
   { time := base + 800 + 1200, kind := SimEventKind.checkpoint i 2 },
   { time := base + 800 + 1200 + 1000, kind := SimEventKind.checkpoint i 3 },
   { time := base + 800 + 1200 + 1000 + 1500, kind := SimEventKind.checkpoint i 4 },
   { time := base + 800 + 1200 + 1000 + 1500 + 1200, kind := SimEventKind.checkpoint i 5 },
   { time := base + 800 + 1200 + 1000 + 1500 + 1200 + 1200, kind := SimEventKind.checkpoint i 6 },
   { time := base + 800 + 1200 + 1000 + 1500 + 1200 + 1200 + 1500,
     kind := SimEventKind.checkpoint i 7 }]

/-- Does this timer run a checkpoint of experiment `i`? -/
def isCheckpointOf (i : Nat) (e : ScheduledTimeout) : Bool :=
  match e.kind with
  | SimEventKind.checkpoint j _ => j == i
  | SimEventKind.finalize => false

/-- Is this timer a checkpoint timer at all (as opposed to the finalize
timer)? -/
def isCheckpointEvent (e : ScheduledTimeout) : Bool :=
  match e.kind with
  | SimEventKind.checkpoint _ _ => true
  | SimEventKind.finalize => false

/-! ## App.tsx: checkpoint callbacks -/

/-- Severity levels of `addLog` (App.tsx line 25). -/
inductive LogType
| info
| success
| warning
deriving DecidableEq, Repr

/-- Which log line was emitted (the message text is a fixed template per
checkpoint, parameterized by the experiment index; we keep the template tag). -/
inductive LogTag
| initEnv
| allocResources
| loadedPlan
| startingExp (i : Nat)
| loadingData (i : Nat)
| initArch (i : Nat)
| trainStart (i : Nat)
| epochMid (i : Nat)
| epochLate (i : Nat)
| validating (i : Nat)
| completedExp (i : Nat)
| allCompleted
| generatingReport
deriving DecidableEq, Repr

/-- One appended log entry (tag plus severity). -/
structure LogEvent where
  tag : LogTag
  type : LogType
deriving DecidableEq, Repr

/-- The state touched by the simulation callbacks: the `isMounted` closure
flag, and the React state cells `plan`, `currentExperimentId`, `logs`,
`status`, `isFinalizing`. -/
structure SimState where
  isMounted : Bool
  plan : ExperimentPlan
  currentExperimentId : Option String
  logs : List LogEvent
  appStatus : AppStatus
  isFinalizing : Bool
deriving DecidableEq, Repr

/-- The `updateExperimentState` payload of checkpoint `k` for the captured
experiment `exp` (App.tsx lines 119–205). `ra` and `rb` are the two
`Math.random()` draws of metric-bearing checkpoints; the decimal literals of
the source appear as exact rationals. Checkpoints 7 and beyond share the
completion branch; the schedule only ever produces `k ≤ 7`. -/
def checkpointUpdates (exp : ExperimentModel) (k : Nat) (ra rb : ℚ) : ExpUpdates :=
  match k with
  | 0 => { progress := some 0, status := some ExpStatus.running, liveMetrics := none }
  | 1 => { progress := some 15, status := none, liveMetrics := none }
  | 2 => { progress := some 30, status := none, liveMetrics := none }
  | 3 => { progress := some 45, status := none,
           liveMetrics := some
             { accuracy := exp.simulatedMetrics.accuracy * (1 / 10) + ra * (5 / 100)
               latencyMs := exp.simulatedMetrics.latencyMs * (3 / 2 + rb * (1 / 2))
               modelSizeMb := exp.simulatedMetrics.modelSizeMb } }
  | 4 => { progress := some 60, status := none,
           liveMetrics := some
             { accuracy := exp.simulatedMetrics.accuracy * (6 / 10) + ra * (5 / 100)
               latencyMs := exp.simulatedMetrics.latencyMs * (6 / 5 + rb * (1 / 5))
               modelSizeMb := exp.simulatedMetrics.modelSizeMb } }
  | 5 => { progress := some 75, status := none,
           liveMetrics := some
             { accuracy := exp.simulatedMetrics.accuracy * (9 / 10) + ra * (1 / 50)
               latencyMs := exp.simulatedMetrics.latencyMs * (21 / 20 + rb * (1 / 20))
               modelSizeMb := exp.simulatedMetrics.modelSizeMb } }
  | 6 => { progress := some 90, status := none,
           liveMetrics := some
             { accuracy := exp.simulatedMetrics.accuracy * (49 / 50)
               latencyMs := exp.simulatedMetrics.latencyMs
               modelSizeMb := exp.simulatedMetrics.modelSizeMb } }
  | _ => { progress := some 100, status := some ExpStatus.completed,
           liveMetrics := some
             { accuracy := exp.simulatedMetrics.accuracy
               latencyMs := exp.simulatedMetrics.latencyMs
               modelSizeMb := exp.simulatedMetrics.modelSizeMb } }

/-- The log line appended by checkpoint `k` of experiment `i` (checkpoint 6
logs at warning level, checkpoint 7 at success level, the rest at info). -/
def cpLog (i k : Nat) : LogEvent :=
  match k with
  | 0 => { tag := LogTag.startingExp i, type := LogType.info }
  | 1 => { tag := LogTag.loadingData i, type := LogType.info }
  | 2 => { tag := LogTag.initArch i, type := LogType.info }
  | 3 => { tag := LogTag.trainStart i, type := LogType.info }
  | 4 => { tag := LogTag.epochMid i, type := LogType.info }
  | 5 => { tag := LogTag.epochLate i, type := LogType.info }
  | 6 => { tag := LogTag.validating i, type := LogType.warning }
  | _ => { tag := LogTag.completedExp i, type := LogType.success }

/-- One checkpoint callback of App.tsx lines 120–205: `if (!isMounted)
return;` first, then (for checkpoint 0) `setCurrentExperimentId`, then
`updateExperimentState`, then `addLog`. -/
def runCheckpoint (exp : ExperimentModel) (i k : Nat) (ra rb : ℚ) (s : SimState) : SimState :=
  if s.isMounted then
    { s with
      currentExperimentId := if k = 0 then some exp.id else s.currentExperimentId
      plan := updateExperimentState exp.id (checkpointUpdates exp k ra rb) s.plan
      logs := s.logs ++ [cpLog i k] }
  else s

/-- The finalize callback of App.tsx lines 211–224 (outer timer): clear the
current experiment, append the two closing log lines, enter the finalizing
phase. -/
def runFinalize (s : SimState) : SimState :=
  if s.isMounted then
    { s with
      currentExperimentId := none
      logs := s.logs ++
        [{ tag := LogTag.allCompleted, type := LogType.success },
         { tag := LogTag.generatingReport, type := LogType.info }]
      isFinalizing := true }
  else s

/-- The nested 1500 ms timer of App.tsx lines 219–223: move the app to
COMPLETED and leave the finalizing phase. -/
def runFinalizeDone (s : SimState) : SimState :=
  if s.isMounted then
    { s with appStatus := AppStatus.COMPLETED, isFinalizing := false }
  else s

/-- The three synchronous `addLog` calls at the top of `runSimulation`
(App.tsx lines 107–109). -/
def simStart (s : SimState) : SimState :=
  { s with logs := s.logs ++
      [{ tag := LogTag.initEnv, type := LogType.info },
       { tag := LogTag.allocResources, type := LogType.info },
       { tag := LogTag.loadedPlan, type := LogType.info }] }

/-- Fire one scheduled timer. The callback closed over the experiment object
`plan0.experiments[i]` of the plan the effect ran with; `rand i k` supplies
the two `Math.random()` draws of that callback. -/
def execEvent (plan0 : ExperimentPlan) (rand : Nat → Nat → ℚ × ℚ) (s : SimState)
    (e : ScheduledTimeout) : SimState :=
  match e.kind with
  | SimEventKind.checkpoint i k =>
    match plan0.experiments[i]? with
    | some exp => runCheckpoint exp i k (rand i k).1 (rand i k).2 s
    | none => s
  | SimEventKind.finalize => runFinalize s

/-- Fire a list of timers in order. -/
def execList (plan0 : ExperimentPlan) (rand : Nat → Nat → ℚ × ℚ)
    (events : List ScheduledTimeout) (s : SimState) : SimState :=
  events.foldl (execEvent plan0 rand) s

/-- A whole uncancelled simulation run: the initial log lines, then every
scheduled timer in ascending time order. -/
def runSimulation (plan0 : ExperimentPlan) (rand : Nat → Nat → ℚ × ℚ) (s : SimState) :
    SimState :=
  execList plan0 rand (simSchedule plan0.experiments.length) (simStart s)

/-- The net effect on an experiment record of its own eight checkpoints: the
completion checkpoint overwrites `progress`, `status` and `liveMetrics`, and
no checkpoint touches any other field. `src` is the captured experiment whose
`simulatedMetrics` the completion checkpoint writes. -/
def finalizeExp (src e : ExperimentModel) : ExperimentModel :=
  { e with
    progress := 100
    status := ExpStatus.completed
    liveMetrics := some src.simulatedMetrics }

/-! ## Concrete sample data (used by witnesses and counterexamples) -/

/-- Sample metrics of a heavier, more accurate model. -/
def sampleMetricsA : Metrics := ⟨4 / 5, 120, 50⟩

/-- Sample metrics of a lighter, faster model. -/
def sampleMetricsB : Metrics := ⟨7 / 10, 30, 5⟩

/-- A sample experiment as produced by `normalizePlan` (pending, progress 0). -/
def sampleExpA : ExperimentModel :=
  ⟨"exp-a", "ResNet50", "baseline", sampleMetricsA, some ⟨0, 0, 0⟩, ExpStatus.pending, 0⟩

/-- A second sample experiment with a distinct id. -/
def sampleExpB : ExperimentModel :=
  ⟨"exp-b", "MobileNet", "lightweight", sampleMetricsB, some ⟨0, 0, 0⟩, ExpStatus.pending, 0⟩

/-- A two-experiment sample plan with distinct ids and a matching winner id. -/
def samplePlan : ExperimentPlan :=
  ⟨"Fraud Suite", "compare models", [sampleExpA, sampleExpB], "exp-b", "take the light one"⟩

/-- A sample plan whose `recommendedWinnerId` matches no experiment. -/
def mismatchedPlan : ExperimentPlan :=
  ⟨"Fraud Suite", "compare models", [sampleExpA, sampleExpB], "no-such-id", "oops"⟩

/-- A parsed payload as the remote model could legally return it. -/
def sampleParsed : ParsedPlan :=
  ⟨"T", "G", [⟨"e1", "M1", "d1", sampleMetricsA⟩, ⟨"e2", "M2", "d2", sampleMetricsB⟩], "e1", "S"⟩

/-- A parsed payload with duplicate experiment ids and an accuracy above 1:
nothing in `generateExperimentPlan` rejects it. -/
def badParsed : ParsedPlan :=
  ⟨"t", "g",
   [⟨"dup", "A", "first", ⟨3 / 2, 10, 5⟩⟩, ⟨"dup", "B", "second", ⟨1 / 2, 20, 6⟩⟩],
   "nowhere", "s"⟩

/-- A live (mounted) simulation state over `samplePlan`. -/
def sampleState : SimState := ⟨true, samplePlan, none, [], AppStatus.EXECUTING, false⟩

/-- A cancelled simulation state (`isMounted` already set to `false` by the
effect cleanup). -/
def cancelledState : SimState :=
  ⟨false, samplePlan, some ("exp-a"), [⟨LogTag.initEnv, LogType.info⟩], AppStatus.EXECUTING, true⟩

/-! ## Helper lemmas -/

theorem genAux_succ (results : Nat → AttemptOutcome) (attempt remaining : Nat) :
    genAux results attempt (remaining + 1) =
      match results attempt with
      | AttemptOutcome.success data =>
        ⟨[attempt], [], GenOutcome.ok (normalizePlan data)⟩
      | AttemptOutcome.failure err =>
        if remaining = 0 then ⟨[attempt], [], GenOutcome.error err⟩
        else
          ⟨attempt :: (genAux results (attempt + 1) remaining).attempts,
           2 ^ attempt * 1000 :: (genAux results (attempt + 1) remaining).waits,
           (genAux results (attempt + 1) remaining).outcome⟩ := by
  rfl

theorem genAux_succ_success (results : Nat → AttemptOutcome) (attempt remaining : Nat)
    (data : ParsedPlan) (hres : results attempt = AttemptOutcome.success data) :
    genAux results attempt (remaining + 1) =
      ⟨[attempt], [], GenOutcome.ok (normalizePlan data)⟩ := by
  rw [genAux_succ, hres]

theorem genAux_succ_failure_last (results : Nat → AttemptOutcome) (attempt : Nat)
    (err : String) (hres : results attempt = AttemptOutcome.failure err) :
    genAux results attempt 1 = ⟨[attempt], [], GenOutcome.error err⟩ := by
  rw [show (1 : Nat) = 0 + 1 from rfl, genAux_succ, hres]
  rfl

theorem genAux_succ_failure_cont (results : Nat → AttemptOutcome) (attempt r : Nat)
    (err : String) (hres : results attempt = AttemptOutcome.failure err) :
    genAux results attempt (r + 1 + 1) =
      ⟨attempt :: (genAux results (attempt + 1) (r + 1)).attempts,
       2 ^ attempt * 1000 :: (genAux results (attempt + 1) (r + 1)).waits,
       (genAux results (attempt + 1) (r + 1)).outcome⟩ := by
  rw [genAux_succ, hres]
  simp

theorem genAux_attempts_length (results : Nat → AttemptOutcome) :
    ∀ remaining attempt, (genAux results attempt remaining).attempts.length ≤ remaining := by
  intro remaining
  induction remaining with
  | zero => intro attempt; exact le_rfl
  | succ r ih =>
    intro attempt
    cases hres : results attempt with
    | success data =>
      rw [genAux_succ_success results attempt r data hres]
      simp
    | failure err =>
      cases r with
      | zero =>
        rw [genAux_succ_failure_last results attempt err hres]
        simp
      | succ r2 =>
        rw [genAux_succ_failure_cont results attempt r2 err hres]
        have h := ih (attempt + 1)
        simp only [List.length_cons]
        omega

/-! ## Claim theorems -/

/-- C1: for every goal, `generateExperimentPlan` makes at most 4 attempts; on
consecutive failures it makes exactly attempts 0–3, waiting 1000, 2000 and
4000 ms after the failing attempts 0, 1, 2, and after the 4th failure it
raises the 4th error with no 5th attempt. -/
theorem retry_backoff_policy :
    (∀ errs : Nat → String,
      generateExperimentPlan (fun k => AttemptOutcome.failure (errs k)) =
        { attempts := [0, 1, 2, 3], waits := [1000, 2000, 4000],
          outcome := GenOutcome.error (errs 3) }) ∧
    (∀ results : Nat → AttemptOutcome,
      (generateExperimentPlan results).attempts.length ≤ maxRetries + 1) := by
  constructor
  · intro errs
    rfl
  · intro results
    exact genAux_attempts_length results (maxRetries + 1) 0

/-- C7: with a non-empty experiments array, a `recommendedWinnerId` matching
no experiment makes the first experiment the winner with no error, and a
matching id makes the matching experiment the winner. -/
theorem winner_fallback_first (plan : ExperimentPlan) (hne : plan.experiments ≠ []) :
    ((∀ e ∈ plan.experiments, e.id ≠ plan.recommendedWinnerId) →
      winnerOf plan = plan.experiments.head? ∧ (winnerOf plan).isSome = true) ∧
    (∀ e, plan.experiments.find? (fun x => x.id == plan.recommendedWinnerId) = some e →
      winnerOf plan = some e) := by
  constructor
  · intro hmiss
    have hf : plan.experiments.find? (fun x => x.id == plan.recommendedWinnerId) = none := by
      apply List.find?_eq_none.mpr
      intro x hx
      simpa using hmiss x hx
    constructor
    · simp [winnerOf, hf, Option.orElse]
    · cases hl : plan.experiments with
      | nil => exact absurd hl hne
      | cons a t =>
        unfold winnerOf
        rw [hf, hl]
        simp [Option.orElse]
  · intro e he
    simp [winnerOf, he, Option.orElse]

/-- C7 witness: on `samplePlan` the winner id matches `sampleExpB`; on
`mismatchedPlan` nothing matches and the first experiment is the winner. -/
theorem winner_fallback_first_witness :
    winnerOf samplePlan = some sampleExpB ∧
    winnerOf mismatchedPlan = mismatchedPlan.experiments.head? := by
  constructor
  · exact (winner_fallback_first samplePlan (by simp [samplePlan])).2 sampleExpB rfl
  · exact ((winner_fallback_first mismatchedPlan (by simp [mismatchedPlan])).1 (by decide)).1

/-- C8: `updateExperimentState` keeps every Plan-level field, the number of
experiments, and for every experiment its `id`, `name`, `description` and
`simulatedMetrics`; experiments whose id differs from the target are
untouched. -/
theorem update_frame (plan : ExperimentPlan) (expId : String) (u : ExpUpdates) :
    (updateExperimentState expId u plan).planTitle = plan.planTitle ∧
    (updateExperimentState expId u plan).goalAnalysis = plan.goalAnalysis ∧
    (updateExperimentState expId u plan).recommendedWinnerId = plan.recommendedWinnerId ∧
    (updateExperimentState expId u plan).summary = plan.summary ∧
    (updateExperimentState expId u plan).experiments.length = plan.experiments.length ∧
    (∀ (p : Nat) (e e' : ExperimentModel), plan.experiments[p]? = some e →
      (updateExperimentState expId u plan).experiments[p]? = some e' →
      e'.id = e.id ∧ e'.name = e.name ∧ e'.description = e.description ∧
      e'.simulatedMetrics = e.simulatedMetrics ∧ (e.id ≠ expId → e' = e)) := by
  refine ⟨rfl, rfl, rfl, rfl, by simp [updateExperimentState], ?_⟩
  intro p e e' he he'
  have hme : (updateExperimentState expId u plan).experiments[p]? =
      some (if e.id = expId then applyUpdates u e else e) := by
    simp [updateExperimentState, List.getElem?_map, he]
  rw [hme] at he'
  injection he' with h2
  subst h2
  by_cases hid : e.id = expId
  · rw [if_pos hid]
    exact ⟨rfl, rfl, rfl, rfl, fun hc => absurd hid hc⟩
  · rw [if_neg hid]
    exact ⟨rfl, rfl, rfl, rfl, fun _ => rfl⟩

/-- C8 witness: a concrete update on `samplePlan` keeps the plan title. -/
theorem update_frame_witness :
    samplePlan.experiments[0]? = some sampleExpA ∧
    (updateExperimentState ("exp-a")
        ⟨some 45, none, some ⟨1, 2, 3⟩⟩ samplePlan).planTitle = samplePlan.planTitle := by
  refine ⟨rfl, ?_⟩
  exact (update_frame samplePlan ("exp-a") ⟨some 45, none, some ⟨1, 2, 3⟩⟩).1

/-- C9: for 3 experiments the simulation schedules exactly 25 timers (24
checkpoints plus the terminal finalize) at strictly increasing offsets; the
inter-event delays are 800, 1200, 1000, 1500, 1200, 1200, 1500 within each
experiment and 500 before the next experiment (and before the terminal
event), and the time from the first to the last scheduled event is the sum of
the per-checkpoint delays over all 3 experiments. -/
theorem three_experiment_schedule :
    (simSchedule 3).length = 8 * 3 + 1 ∧
    (simSchedule 3).countP isCheckpointEvent = 24 ∧
    (simSchedule 3).countP (fun e => !isCheckpointEvent e) = 1 ∧
    ((simSchedule 3).map (fun e => e.time)).Chain' (· < ·) ∧
    (simSchedule 3).map (fun e => e.time) =
      [1500, 2300, 3500, 4500, 6000, 7200, 8400, 9900,
       10400, 11200, 12400, 13400, 14900, 16100, 17300, 18800,
       19300, 20100, 21300, 22300, 23800, 25000, 26200, 27700, 28200] ∧
    (List.zipWith (fun a b => b - a) ((simSchedule 3).map (fun e => e.time))
        (((simSchedule 3).map (fun e => e.time)).tail) =
      [800, 1200, 1000, 1500, 1200, 1200, 1500, 500,
       800, 1200, 1000, 1500, 1200, 1200, 1500, 500,
       800, 1200, 1000, 1500, 1200, 1200, 1500, 500]) ∧
    28200 - 1500 = 3 * (800 + 1200 + 1000 + 1500 + 1200 + 1200 + 1500 + 500) := by
  have ht : (simSchedule 3).map (fun e => e.time) =
      [1500, 2300, 3500, 4500, 6000, 7200, 8400, 9900,
       10400, 11200, 12400, 13400, 14900, 16100, 17300, 18800,
       19300, 20100, 21300, 22300, 23800, 25000, 26200, 27700, 28200] := rfl
  refine ⟨rfl, rfl, rfl, ?_, ht, rfl, rfl⟩
  rw [ht]
  simp [List.chain'_cons]

/-- C10: every checkpoint that writes `liveMetrics` writes `modelSizeMb`
equal to `simulatedMetrics.modelSizeMb`, and the metric-bearing checkpoints
are exactly those at progress 45, 60, 75, 90, 100 (indices 3–7). -/
theorem model_size_constant (exp : ExperimentModel) (ra rb : ℚ) :
    (∀ k m, (checkpointUpdates exp k ra rb).liveMetrics = some m →
      m.modelSizeMb = exp.simulatedMetrics.modelSizeMb) ∧
    ((List.range 8).map (fun k => (checkpointUpdates exp k ra rb).liveMetrics.isSome) =
      [false, false, false, true, true, true, true, true]) := by
  constructor
  · intro k m h
    rcases k with _ | _ | _ | _ | _ | _ | _ | k
    · simp [checkpointUpdates] at h
    · simp [checkpointUpdates] at h
    · simp [checkpointUpdates] at h
    · injection h with h2; rw [← h2]
    · injection h with h2; rw [← h2]
    · injection h with h2; rw [← h2]
    · injection h with h2; rw [← h2]
    · injection h with h2; rw [← h2]
  · rfl

/-- C10 witness: the completion update of `sampleExpA` writes `liveMetrics`
whose model size is the final simulated model size. -/
theorem model_size_constant_witness :
    sampleMetricsA.modelSizeMb = sampleExpA.simulatedMetrics.modelSizeMb :=
  (model_size_constant sampleExpA 0 0).1 7 sampleMetricsA rfl

theorem simScheduleAux_succ (rem i0 offset : Nat) :
    simScheduleAux (rem + 1) i0 offset =
      { time := offset, kind := SimEventKind.checkpoint i0 0 } ::
      { time := offset + 800, kind := SimEventKind.checkpoint i0 1 } ::
      { time := offset + 800 + 1200, kind := SimEventKind.checkpoint i0 2 } ::
      { time := offset + 800 + 1200 + 1000, kind := SimEventKind.checkpoint i0 3 } ::
      { time := offset + 800 + 1200 + 1000 + 1500, kind := SimEventKind.checkpoint i0 4 } ::
      { time := offset + 800 + 1200 + 1000 + 1500 + 1200, kind := SimEventKind.checkpoint i0 5 } ::
      { time := offset + 800 + 1200 + 1000 + 1500 + 1200 + 1200,
        kind := SimEventKind.checkpoint i0 6 } ::
      { time := offset + 800 + 1200 + 1000 + 1500 + 1200 + 1200 + 1500,
        kind := SimEventKind.checkpoint i0 7 } ::
      simScheduleAux rem (i0 + 1)
        (offset + 800 + 1200 + 1000 + 1500 + 1200 + 1200 + 1500 + 500) := rfl

theorem simScheduleAux_filter (j : Nat) :
    ∀ (remaining i0 offset : Nat),
      (simScheduleAux remaining i0 offset).filter (isCheckpointOf j) =
        if i0 ≤ j ∧ j < i0 + remaining then expBlock j (offset + (j - i0) * 8900) else [] := by
  intro remaining
  induction remaining with
  | zero =>
    intro i0 offset
    rw [if_neg (by omega)]
    rfl
  | succ rem ih =>
    intro i0 offset
    rw [simScheduleAux_succ]
    by_cases hj : i0 = j
    · subst hj
      rw [List.filter_cons_of_pos (by simp [isCheckpointOf]),
          List.filter_cons_of_pos (by simp [isCheckpointOf]),
          List.filter_cons_of_pos (by simp [isCheckpointOf]),
          List.filter_cons_of_pos (by simp [isCheckpointOf]),
          List.filter_cons_of_pos (by simp [isCheckpointOf]),
          List.filter_cons_of_pos (by simp [isCheckpointOf]),
          List.filter_cons_of_pos (by simp [isCheckpointOf]),
          List.filter_cons_of_pos (by simp [isCheckpointOf]),
          ih (i0 + 1) (offset + 800 + 1200 + 1000 + 1500 + 1200 + 1200 + 1500 + 500),
          if_neg (by omega), if_pos (by omega)]
      simp [expBlock]
    · rw [List.filter_cons_of_neg (by simp [isCheckpointOf, hj]),
          List.filter_cons_of_neg (by simp [isCheckpointOf, hj]),
          List.filter_cons_of_neg (by simp [isCheckpointOf, hj]),
          List.filter_cons_of_neg (by simp [isCheckpointOf, hj]),
          List.filter_cons_of_neg (by simp [isCheckpointOf, hj]),
          List.filter_cons_of_neg (by simp [isCheckpointOf, hj]),
          List.filter_cons_of_neg (by simp [isCheckpointOf, hj]),
          List.filter_cons_of_neg (by simp [isCheckpointOf, hj]),
          ih (i0 + 1) (offset + 800 + 1200 + 1000 + 1500 + 1200 + 1200 + 1500 + 500)]
      by_cases hc : i0 + 1 ≤ j ∧ j < i0 + 1 + rem
      · rw [if_pos hc, if_pos (by omega)]
        congr 1
        omega
      · rw [if_neg hc, if_neg (by omega)]

/-- C2: for every plan size `n` and experiment index `i < n`, the timers the
simulation schedules for experiment `i` are exactly its eight checkpoints
0–7 at strictly increasing times; the checkpoint payloads carry the progress
sequence [0, 15, 30, 45, 60, 75, 90, 100] with status `running` written at
progress 0 and `completed` at progress 100 (and no status change in between);
and every checkpoint of experiment `i` is scheduled strictly before the first
checkpoint of experiment `i + 1`. -/
theorem checkpoint_sequence (n i : Nat) (h : i < n) :
    (simSchedule n).filter (isCheckpointOf i) = expBlock i (expBase i) ∧
    ((expBlock i (expBase i)).map (fun e => e.time)).Chain' (· < ·) ∧
    (expBlock i (expBase i)).map (fun e => e.kind) =
      (List.range 8).map (fun k => SimEventKind.checkpoint i k) ∧
    (∀ (exp : ExperimentModel) (ra rb : ℚ),
      (List.range 8).map (fun k => (checkpointUpdates exp k ra rb).progress) =
        [some 0, some 15, some 30, some 45, some 60, some 75, some 90, some 100]) ∧
    (∀ (exp : ExperimentModel) (ra rb : ℚ),
      (List.range 8).map (fun k => (checkpointUpdates exp k ra rb).status) =
        [some ExpStatus.running, none, none, none, none, none, none,
         some ExpStatus.completed]) ∧
    (∀ e ∈ expBlock i (expBase i), e.time < expBase (i + 1)) ∧
    (i + 1 < n →
      (simSchedule n).filter (isCheckpointOf (i + 1)) = expBlock (i + 1) (expBase (i + 1))) := by
  refine ⟨?_, ?_, rfl, fun exp ra rb => rfl, fun exp ra rb => rfl, ?_, ?_⟩
  · rw [simSchedule, simScheduleAux_filter i n 0 1500, if_pos (by omega)]
    have harith : 1500 + (i - 0) * 8900 = expBase i := by
      simp only [expBase, Nat.sub_zero]
    rw [harith]
  · simp only [expBlock, List.map_cons, List.map_nil, List.chain'_cons,
      List.chain'_singleton, and_true]
    omega
  · intro e he
    simp only [expBlock, List.mem_cons, List.not_mem_nil, or_false] at he
    rcases he with rfl | rfl | rfl | rfl | rfl | rfl | rfl | rfl <;> (simp only [expBase]; omega)
  · intro hn
    rw [simSchedule, simScheduleAux_filter (i + 1) n 0 1500, if_pos (by omega)]
    have harith : 1500 + (i + 1 - 0) * 8900 = expBase (i + 1) := by
      simp only [expBase, Nat.sub_zero]
    rw [harith]

/-- C2 witness: in a 2-experiment run, experiment 0's scheduled checkpoints
are exactly its block starting at 1500 ms. -/
theorem checkpoint_sequence_witness :
    (simSchedule 2).filter (isCheckpointOf 0) = expBlock 0 (expBase 0) :=
  (checkpoint_sequence 2 0 (by omega)).1

theorem applyUpdates_id (u : ExpUpdates) (e : ExperimentModel) :
    (applyUpdates u e).id = e.id := rfl

theorem runCheckpoint_isMounted (exp : ExperimentModel) (i k : Nat) (ra rb : ℚ) (s : SimState) :
    (runCheckpoint exp i k ra rb s).isMounted = s.isMounted := by
  by_cases hm : s.isMounted <;> simp [runCheckpoint, hm]

theorem runFinalize_isMounted (s : SimState) : (runFinalize s).isMounted = s.isMounted := by
  by_cases hm : s.isMounted <;> simp [runFinalize, hm]

theorem runFinalize_plan (s : SimState) : (runFinalize s).plan = s.plan := by
  by_cases hm : s.isMounted <;> simp [runFinalize, hm]

theorem runCheckpoint_plan (exp : ExperimentModel) (i k : Nat) (ra rb : ℚ) (s : SimState)
    (hm : s.isMounted = true) :
    (runCheckpoint exp i k ra rb s).plan =
      updateExperimentState exp.id (checkpointUpdates exp k ra rb) s.plan := by
  simp [runCheckpoint, hm]

theorem execList_cons (plan0 : ExperimentPlan) (rand : Nat → Nat → ℚ × ℚ)
    (e : ScheduledTimeout) (events : List ScheduledTimeout) (s : SimState) :
    execList plan0 rand (e :: events) s =
      execList plan0 rand events (execEvent plan0 rand s e) := rfl

theorem updateExperimentState_experiments (d : String) (u : ExpUpdates) (p : ExperimentPlan) :
    (updateExperimentState d u p).experiments =
      p.experiments.map (fun e => if e.id = d then applyUpdates u e else e) := rfl

theorem updateExperimentState_getElem (d : String) (u : ExpUpdates) (plan : ExperimentPlan)
    (p : Nat) :
    (updateExperimentState d u plan).experiments[p]? =
      (plan.experiments[p]?).map (fun e => if e.id = d then applyUpdates u e else e) := by
  rw [updateExperimentState_experiments, List.getElem?_map]

theorem runCheckpoint_getElem_step (exp : ExperimentModel) (i k : Nat) (ra rb : ℚ)
    (s1 : SimState) (hm1 : s1.isMounted = true) (p : Nat) (e1 : ExperimentModel)
    (he1 : s1.plan.experiments[p]? = some e1) (hid : e1.id = exp.id) :
    (runCheckpoint exp i k ra rb s1).plan.experiments[p]? =
      some (applyUpdates (checkpointUpdates exp k ra rb) e1) := by
  rw [runCheckpoint_plan exp i k ra rb s1 hm1, updateExperimentState_getElem, he1,
      Option.map_some']
  exact congrArg some (if_pos hid)

theorem runCheckpoint_getElem_skip (exp : ExperimentModel) (i k : Nat) (ra rb : ℚ)
    (s1 : SimState) (hm1 : s1.isMounted = true) (p : Nat) (e1 : ExperimentModel)
    (he1 : s1.plan.experiments[p]? = some e1) (hne : ¬ e1.id = exp.id) :
    (runCheckpoint exp i k ra rb s1).plan.experiments[p]? = some e1 := by
  rw [runCheckpoint_plan exp i k ra rb s1 hm1, updateExperimentState_getElem, he1,
      Option.map_some']
  exact congrArg some (if_neg hne)

theorem runCheckpoint_length (exp : ExperimentModel) (i k : Nat) (ra rb : ℚ)
    (s1 : SimState) (hm1 : s1.isMounted = true) :
    (runCheckpoint exp i k ra rb s1).plan.experiments.length =
      s1.plan.experiments.length := by
  rw [runCheckpoint_plan exp i k ra rb s1 hm1, updateExperimentState_experiments,
      List.length_map]

theorem runBlock_length (exp : ExperimentModel) (i : Nat) (s : SimState)
    (hm : s.isMounted = true) (a0 b0 a1 b1 a2 b2 a3 b3 a4 b4 a5 b5 a6 b6 a7 b7 : ℚ) :
    (runCheckpoint exp i 7 a7 b7 (runCheckpoint exp i 6 a6 b6 (runCheckpoint exp i 5 a5 b5 (runCheckpoint exp i 4 a4 b4 (runCheckpoint exp i 3 a3 b3 (runCheckpoint exp i 2 a2 b2 (runCheckpoint exp i 1 a1 b1 (runCheckpoint exp i 0 a0 b0 s)))))))).plan.experiments.length = s.plan.experiments.length := by
  have hm1 : (runCheckpoint exp i 0 a0 b0 s).isMounted = true := by
    simp only [runCheckpoint_isMounted]
    exact hm
  have hm2 : (runCheckpoint exp i 1 a1 b1 (runCheckpoint exp i 0 a0 b0 s)).isMounted = true := by
    simp only [runCheckpoint_isMounted]
    exact hm
  have hm3 : (runCheckpoint exp i 2 a2 b2 (runCheckpoint exp i 1 a1 b1 (runCheckpoint exp i 0 a0 b0 s))).isMounted = true := by
    simp only [runCheckpoint_isMounted]
    exact hm
  have hm4 : (runCheckpoint exp i 3 a3 b3 (runCheckpoint exp i 2 a2 b2 (runCheckpoint exp i 1 a1 b1 (runCheckpoint exp i 0 a0 b0 s)))).isMounted = true := by
    simp only [runCheckpoint_isMounted]
    exact hm
  have hm5 : (runCheckpoint exp i 4 a4 b4 (runCheckpoint exp i 3 a3 b3 (runCheckpoint exp i 2 a2 b2 (runCheckpoint exp i 1 a1 b1 (runCheckpoint exp i 0 a0 b0 s))))).isMounted = true := by
    simp only [runCheckpoint_isMounted]
    exact hm
  have hm6 : (runCheckpoint exp i 5 a5 b5 (runCheckpoint exp i 4 a4 b4 (runCheckpoint exp i 3 a3 b3 (runCheckpoint exp i 2 a2 b2 (runCheckpoint exp i 1 a1 b1 (runCheckpoint exp i 0 a0 b0 s)))))).isMounted = true := by
    simp only [runCheckpoint_isMounted]
    exact hm
  have hm7 : (runCheckpoint exp i 6 a6 b6 (runCheckpoint exp i 5 a5 b5 (runCheckpoint exp i 4 a4 b4 (runCheckpoint exp i 3 a3 b3 (runCheckpoint exp i 2 a2 b2 (runCheckpoint exp i 1 a1 b1 (runCheckpoint exp i 0 a0 b0 s))))))).isMounted = true := by
    simp only [runCheckpoint_isMounted]
    exact hm
  rw [runCheckpoint_length exp i 7 a7 b7 _ hm7,
      runCheckpoint_length exp i 6 a6 b6 _ hm6,
      runCheckpoint_length exp i 5 a5 b5 _ hm5,
      runCheckpoint_length exp i 4 a4 b4 _ hm4,
      runCheckpoint_length exp i 3 a3 b3 _ hm3,
      runCheckpoint_length exp i 2 a2 b2 _ hm2,
      runCheckpoint_length exp i 1 a1 b1 _ hm1,
      runCheckpoint_length exp i 0 a0 b0 s hm]

theorem runCheckpoint_getElem_keep (exp : ExperimentModel) (i k : Nat) (ra rb : ℚ)
    (s1 : SimState) (hm1 : s1.isMounted = true) (p : Nat) (e1 : ExperimentModel)
    (he1 : s1.plan.experiments[p]? = some e1) (hid : e1.id = exp.id) :
    ∃ e2, (runCheckpoint exp i k ra rb s1).plan.experiments[p]? = some e2 ∧
      e2.id = e1.id ∧ e2.name = e1.name ∧ e2.description = e1.description ∧
      e2.simulatedMetrics = e1.simulatedMetrics := by
  refine ⟨applyUpdates (checkpointUpdates exp k ra rb) e1, ?_, rfl, rfl, rfl, rfl⟩
  rw [runCheckpoint_plan exp i k ra rb s1 hm1, updateExperimentState_getElem, he1,
      Option.map_some']
  exact congrArg some (if_pos hid)

theorem runCheckpoint_getElem_final (exp : ExperimentModel) (i : Nat) (ra rb : ℚ)
    (s1 : SimState) (hm1 : s1.isMounted = true) (p : Nat) (e1 : ExperimentModel)
    (he1 : s1.plan.experiments[p]? = some e1) (hid : e1.id = exp.id) :
    (runCheckpoint exp i 7 ra rb s1).plan.experiments[p]? =
      some { id := e1.id, name := e1.name, description := e1.description,
             simulatedMetrics := e1.simulatedMetrics,
             liveMetrics := some exp.simulatedMetrics,
             status := ExpStatus.completed, progress := 100 } := by
  rw [runCheckpoint_plan exp i 7 ra rb s1 hm1, updateExperimentState_getElem, he1,
      Option.map_some']
  exact congrArg some (if_pos hid)

theorem runBlock_getElem_eq (exp : ExperimentModel) (i : Nat) (s : SimState)
    (hm : s.isMounted = true) (a0 b0 a1 b1 a2 b2 a3 b3 a4 b4 a5 b5 a6 b6 a7 b7 : ℚ) (p : Nat) (e0 : ExperimentModel)
    (hse : s.plan.experiments[p]? = some e0) (heq : e0.id = exp.id) :
    (runCheckpoint exp i 7 a7 b7 (runCheckpoint exp i 6 a6 b6 (runCheckpoint exp i 5 a5 b5 (runCheckpoint exp i 4 a4 b4 (runCheckpoint exp i 3 a3 b3 (runCheckpoint exp i 2 a2 b2 (runCheckpoint exp i 1 a1 b1 (runCheckpoint exp i 0 a0 b0 s)))))))).plan.experiments[p]? = some (finalizeExp exp e0) := by
  have hm1 : (runCheckpoint exp i 0 a0 b0 s).isMounted = true := by
    simp only [runCheckpoint_isMounted]
    exact hm
  have hm2 : (runCheckpoint exp i 1 a1 b1 (runCheckpoint exp i 0 a0 b0 s)).isMounted = true := by
    simp only [runCheckpoint_isMounted]
    exact hm
  have hm3 : (runCheckpoint exp i 2 a2 b2 (runCheckpoint exp i 1 a1 b1 (runCheckpoint exp i 0 a0 b0 s))).isMounted = true := by
    simp only [runCheckpoint_isMounted]
    exact hm
  have hm4 : (runCheckpoint exp i 3 a3 b3 (runCheckpoint exp i 2 a2 b2 (runCheckpoint exp i 1 a1 b1 (runCheckpoint exp i 0 a0 b0 s)))).isMounted = true := by
    simp only [runCheckpoint_isMounted]
    exact hm
  have hm5 : (runCheckpoint exp i 4 a4 b4 (runCheckpoint exp i 3 a3 b3 (runCheckpoint exp i 2 a2 b2 (runCheckpoint exp i 1 a1 b1 (runCheckpoint exp i 0 a0 b0 s))))).isMounted = true := by
    simp only [runCheckpoint_isMounted]
    exact hm
  have hm6 : (runCheckpoint exp i 5 a5 b5 (runCheckpoint exp i 4 a4 b4 (runCheckpoint exp i 3 a3 b3 (runCheckpoint exp i 2 a2 b2 (runCheckpoint exp i 1 a1 b1 (runCheckpoint exp i 0 a0 b0 s)))))).isMounted = true := by
    simp only [runCheckpoint_isMounted]
    exact hm
  have hm7 : (runCheckpoint exp i 6 a6 b6 (runCheckpoint exp i 5 a5 b5 (runCheckpoint exp i 4 a4 b4 (runCheckpoint exp i 3 a3 b3 (runCheckpoint exp i 2 a2 b2 (runCheckpoint exp i 1 a1 b1 (runCheckpoint exp i 0 a0 b0 s))))))).isMounted = true := by
    simp only [runCheckpoint_isMounted]
    exact hm
  obtain ⟨e1, h0, i1, n1, d1, m1⟩ :=
    runCheckpoint_getElem_keep exp i 0 a0 b0 s hm p e0 hse heq
  obtain ⟨e2, h1, i2, n2, d2, m2⟩ :=
    runCheckpoint_getElem_keep exp i 1 a1 b1 _ hm1 p e1 h0
      (by rw [i1]; exact heq)
  obtain ⟨e3, h2, i3, n3, d3, m3⟩ :=
    runCheckpoint_getElem_keep exp i 2 a2 b2 _ hm2 p e2 h1
      (by rw [i2, i1]; exact heq)
  obtain ⟨e4, h3, i4, n4, d4, m4⟩ :=
    runCheckpoint_getElem_keep exp i 3 a3 b3 _ hm3 p e3 h2
      (by rw [i3, i2, i1]; exact heq)
  obtain ⟨e5, h4, i5, n5, d5, m5⟩ :=
    runCheckpoint_getElem_keep exp i 4 a4 b4 _ hm4 p e4 h3
      (by rw [i4, i3, i2, i1]; exact heq)
  obtain ⟨e6, h5, i6, n6, d6, m6⟩ :=
    runCheckpoint_getElem_keep exp i 5 a5 b5 _ hm5 p e5 h4
      (by rw [i5, i4, i3, i2, i1]; exact heq)
  obtain ⟨e7, h6, i7, n7, d7, m7⟩ :=
    runCheckpoint_getElem_keep exp i 6 a6 b6 _ hm6 p e6 h5
      (by rw [i6, i5, i4, i3, i2, i1]; exact heq)
  rw [runCheckpoint_getElem_final exp i a7 b7 _ hm7 p e7 h6
      (by rw [i7, i6, i5, i4, i3, i2, i1]; exact heq)]
  rw [i7, i6, i5, i4, i3, i2, i1, n7, n6, n5, n4, n3, n2, n1,
      d7, d6, d5, d4, d3, d2, d1, m7, m6, m5, m4, m3, m2, m1]
  rfl
theorem runBlock_getElem_ne (exp : ExperimentModel) (i : Nat) (s : SimState)
    (hm : s.isMounted = true) (a0 b0 a1 b1 a2 b2 a3 b3 a4 b4 a5 b5 a6 b6 a7 b7 : ℚ) (p : Nat) (e0 : ExperimentModel)
    (hse : s.plan.experiments[p]? = some e0) (hne : ¬ e0.id = exp.id) :
    (runCheckpoint exp i 7 a7 b7 (runCheckpoint exp i 6 a6 b6 (runCheckpoint exp i 5 a5 b5 (runCheckpoint exp i 4 a4 b4 (runCheckpoint exp i 3 a3 b3 (runCheckpoint exp i 2 a2 b2 (runCheckpoint exp i 1 a1 b1 (runCheckpoint exp i 0 a0 b0 s)))))))).plan.experiments[p]? = some e0 := by
  have hm1 : (runCheckpoint exp i 0 a0 b0 s).isMounted = true := by
    simp only [runCheckpoint_isMounted]
    exact hm
  have hm2 : (runCheckpoint exp i 1 a1 b1 (runCheckpoint exp i 0 a0 b0 s)).isMounted = true := by
    simp only [runCheckpoint_isMounted]
    exact hm
  have hm3 : (runCheckpoint exp i 2 a2 b2 (runCheckpoint exp i 1 a1 b1 (runCheckpoint exp i 0 a0 b0 s))).isMounted = true := by
    simp only [runCheckpoint_isMounted]
    exact hm
  have hm4 : (runCheckpoint exp i 3 a3 b3 (runCheckpoint exp i 2 a2 b2 (runCheckpoint exp i 1 a1 b1 (runCheckpoint exp i 0 a0 b0 s)))).isMounted = true := by
    simp only [runCheckpoint_isMounted]
    exact hm
  have hm5 : (runCheckpoint exp i 4 a4 b4 (runCheckpoint exp i 3 a3 b3 (runCheckpoint exp i 2 a2 b2 (runCheckpoint exp i 1 a1 b1 (runCheckpoint exp i 0 a0 b0 s))))).isMounted = true := by
    simp only [runCheckpoint_isMounted]
    exact hm
  have hm6 : (runCheckpoint exp i 5 a5 b5 (runCheckpoint exp i 4 a4 b4 (runCheckpoint exp i 3 a3 b3 (runCheckpoint exp i 2 a2 b2 (runCheckpoint exp i 1 a1 b1 (runCheckpoint exp i 0 a0 b0 s)))))).isMounted = true := by
    simp only [runCheckpoint_isMounted]
    exact hm
  have hm7 : (runCheckpoint exp i 6 a6 b6 (runCheckpoint exp i 5 a5 b5 (runCheckpoint exp i 4 a4 b4 (runCheckpoint exp i 3 a3 b3 (runCheckpoint exp i 2 a2 b2 (runCheckpoint exp i 1 a1 b1 (runCheckpoint exp i 0 a0 b0 s))))))).isMounted = true := by
    simp only [runCheckpoint_isMounted]
    exact hm
  have h0 := runCheckpoint_getElem_skip exp i 0 a0 b0 s hm p e0 hse hne
  have h1 := runCheckpoint_getElem_skip exp i 1 a1 b1 _ hm1 p e0 h0 hne
  have h2 := runCheckpoint_getElem_skip exp i 2 a2 b2 _ hm2 p e0 h1 hne
  have h3 := runCheckpoint_getElem_skip exp i 3 a3 b3 _ hm3 p e0 h2 hne
  have h4 := runCheckpoint_getElem_skip exp i 4 a4 b4 _ hm4 p e0 h3 hne
  have h5 := runCheckpoint_getElem_skip exp i 5 a5 b5 _ hm5 p e0 h4 hne
  have h6 := runCheckpoint_getElem_skip exp i 6 a6 b6 _ hm6 p e0 h5 hne
  have h7 := runCheckpoint_getElem_skip exp i 7 a7 b7 _ hm7 p e0 h6 hne
  exact h7

theorem runBlock_isMounted (exp : ExperimentModel) (i : Nat) (s : SimState)
    (a0 b0 a1 b1 a2 b2 a3 b3 a4 b4 a5 b5 a6 b6 a7 b7 : ℚ) :
    (runCheckpoint exp i 7 a7 b7 (runCheckpoint exp i 6 a6 b6 (runCheckpoint exp i 5 a5 b5 (runCheckpoint exp i 4 a4 b4 (runCheckpoint exp i 3 a3 b3 (runCheckpoint exp i 2 a2 b2 (runCheckpoint exp i 1 a1 b1 (runCheckpoint exp i 0 a0 b0 s)))))))).isMounted = s.isMounted := by
  simp only [runCheckpoint_isMounted]

theorem execList_simScheduleAux (plan0 : ExperimentPlan) (rand : Nat → Nat → ℚ × ℚ)
    (hnd : (plan0.experiments.map (fun e => e.id)).Nodup) :
    ∀ (remaining i offset : Nat) (s : SimState),
      s.isMounted = true →
      i + remaining = plan0.experiments.length →
      s.plan.experiments.map (fun e => (e.id, e.simulatedMetrics)) =
        plan0.experiments.map (fun e => (e.id, e.simulatedMetrics)) →
      ((execList plan0 rand (simScheduleAux remaining i offset) s).plan.experiments.length =
          s.plan.experiments.length) ∧
      (∀ p : Nat, p < i →
        (execList plan0 rand (simScheduleAux remaining i offset) s).plan.experiments[p]? =
          s.plan.experiments[p]?) ∧
      (∀ (p : Nat) (ep : ExperimentModel), i ≤ p → plan0.experiments[p]? = some ep →
        ∃ e, s.plan.experiments[p]? = some e ∧
          (execList plan0 rand (simScheduleAux remaining i offset) s).plan.experiments[p]? =
            some (finalizeExp ep e)) := by
  intro remaining
  induction remaining with
  | zero =>
    intro i offset s hm hlen hal
    refine ⟨?_, ?_, ?_⟩
    · show (runFinalize s).plan.experiments.length = _
      rw [runFinalize_plan]
    · intro p hp
      show (runFinalize s).plan.experiments[p]? = _
      rw [runFinalize_plan]
    · intro p ep hip hp
      have hple : p < plan0.experiments.length := by
        by_contra hc
        rw [List.getElem?_eq_none (by omega)] at hp
        cases hp
      omega
  | succ rem ih =>
    intro i offset s hm hlen hal
    have hi_lt : i < plan0.experiments.length := by omega
    have hi : plan0.experiments[i]? = some plan0.experiments[i] :=
      List.getElem?_eq_getElem hi_lt
    have hslen : s.plan.experiments.length = plan0.experiments.length := by
      have h2 := congrArg List.length hal
      simpa using h2
    have hpair : ∀ p : Nat,
        (s.plan.experiments[p]?).map (fun e => (e.id, e.simulatedMetrics)) =
          (plan0.experiments[p]?).map (fun e => (e.id, e.simulatedMetrics)) := by
      intro p
      rw [← List.getElem?_map, ← List.getElem?_map, hal]
    have hid_at : ∀ (p : Nat) (ep : ExperimentModel), plan0.experiments[p]? = some ep →
        ∃ e, s.plan.experiments[p]? = some e ∧ e.id = ep.id ∧
          e.simulatedMetrics = ep.simulatedMetrics := by
      intro p ep hpe
      have hple : p < plan0.experiments.length := by
        by_contra hc
        rw [List.getElem?_eq_none (by omega)] at hpe
        cases hpe
      have hpl : p < s.plan.experiments.length := by omega
      have hse : s.plan.experiments[p]? = some (s.plan.experiments[p]) :=
        List.getElem?_eq_getElem hpl
      have hq := hpair p
      rw [hse, hpe] at hq
      simp at hq
      exact ⟨s.plan.experiments[p], hse, hq.1, hq.2⟩
    have hid_ne : ∀ (p : Nat) (ep ei : ExperimentModel), p ≠ i →
        plan0.experiments[p]? = some ep → plan0.experiments[i]? = some ei →
        ep.id ≠ ei.id := by
      intro p ep ei hpne hpe hie heq
      have hple : p < plan0.experiments.length := by
        by_contra hc
        rw [List.getElem?_eq_none (by omega)] at hpe
        cases hpe
      have hgp : (plan0.experiments.map (fun e => e.id))[p]? = some ep.id := by
        rw [List.getElem?_map, hpe]
        rfl
      have hgi : (plan0.experiments.map (fun e => e.id))[i]? = some ei.id := by
        rw [List.getElem?_map, hie]
        rfl
      have hlen2 : i < (plan0.experiments.map (fun e => e.id)).length := by
        rw [List.length_map]
        exact hi_lt
      have hplen2 : p < (plan0.experiments.map (fun e => e.id)).length := by
        rw [List.length_map]
        exact hple
      rcases Nat.lt_or_ge p i with hlt | hge
      · exact (List.nodup_iff_getElem?_ne_getElem?.mp hnd p i hlt hlen2)
          (by rw [hgp, hgi, heq])
      · exact (List.nodup_iff_getElem?_ne_getElem?.mp hnd i p (by omega) hplen2)
          (by rw [hgp, hgi, heq])
    rw [simScheduleAux_succ, execList_cons, execList_cons, execList_cons, execList_cons,
        execList_cons, execList_cons, execList_cons, execList_cons]
    simp only [execEvent, hi]
    have hm8 : ((runCheckpoint plan0.experiments[i] i 7 (rand i 7).1 (rand i 7).2 (runCheckpoint plan0.experiments[i] i 6 (rand i 6).1 (rand i 6).2 (runCheckpoint plan0.experiments[i] i 5 (rand i 5).1 (rand i 5).2 (runCheckpoint plan0.experiments[i] i 4 (rand i 4).1 (rand i 4).2 (runCheckpoint plan0.experiments[i] i 3 (rand i 3).1 (rand i 3).2 (runCheckpoint plan0.experiments[i] i 2 (rand i 2).1 (rand i 2).2 (runCheckpoint plan0.experiments[i] i 1 (rand i 1).1 (rand i 1).2 (runCheckpoint plan0.experiments[i] i 0 (rand i 0).1 (rand i 0).2 s))))))))).isMounted = true := by
      rw [runBlock_isMounted]
      exact hm
    have hlen8 : ((runCheckpoint plan0.experiments[i] i 7 (rand i 7).1 (rand i 7).2 (runCheckpoint plan0.experiments[i] i 6 (rand i 6).1 (rand i 6).2 (runCheckpoint plan0.experiments[i] i 5 (rand i 5).1 (rand i 5).2 (runCheckpoint plan0.experiments[i] i 4 (rand i 4).1 (rand i 4).2 (runCheckpoint plan0.experiments[i] i 3 (rand i 3).1 (rand i 3).2 (runCheckpoint plan0.experiments[i] i 2 (rand i 2).1 (rand i 2).2 (runCheckpoint plan0.experiments[i] i 1 (rand i 1).1 (rand i 1).2 (runCheckpoint plan0.experiments[i] i 0 (rand i 0).1 (rand i 0).2 s))))))))).plan.experiments.length = s.plan.experiments.length :=
      runBlock_length plan0.experiments[i] i s hm (rand i 0).1 (rand i 0).2 (rand i 1).1
        (rand i 1).2 (rand i 2).1 (rand i 2).2 (rand i 3).1 (rand i 3).2 (rand i 4).1
        (rand i 4).2 (rand i 5).1 (rand i 5).2 (rand i 6).1 (rand i 6).2 (rand i 7).1
        (rand i 7).2
    have hal8 : ((runCheckpoint plan0.experiments[i] i 7 (rand i 7).1 (rand i 7).2 (runCheckpoint plan0.experiments[i] i 6 (rand i 6).1 (rand i 6).2 (runCheckpoint plan0.experiments[i] i 5 (rand i 5).1 (rand i 5).2 (runCheckpoint plan0.experiments[i] i 4 (rand i 4).1 (rand i 4).2 (runCheckpoint plan0.experiments[i] i 3 (rand i 3).1 (rand i 3).2 (runCheckpoint plan0.experiments[i] i 2 (rand i 2).1 (rand i 2).2 (runCheckpoint plan0.experiments[i] i 1 (rand i 1).1 (rand i 1).2 (runCheckpoint plan0.experiments[i] i 0 (rand i 0).1 (rand i 0).2 s))))))))).plan.experiments.map (fun e => (e.id, e.simulatedMetrics)) =
        plan0.experiments.map (fun e => (e.id, e.simulatedMetrics)) := by
      apply List.ext_getElem?
      intro p
      rw [List.getElem?_map, List.getElem?_map]
      rcases hsp : s.plan.experiments[p]? with _ | e0
      · have hpge : s.plan.experiments.length ≤ p := by
          by_contra hc
          rw [List.getElem?_eq_getElem (by omega)] at hsp
          cases hsp
        have hs8 : ((runCheckpoint plan0.experiments[i] i 7 (rand i 7).1 (rand i 7).2 (runCheckpoint plan0.experiments[i] i 6 (rand i 6).1 (rand i 6).2 (runCheckpoint plan0.experiments[i] i 5 (rand i 5).1 (rand i 5).2 (runCheckpoint plan0.experiments[i] i 4 (rand i 4).1 (rand i 4).2 (runCheckpoint plan0.experiments[i] i 3 (rand i 3).1 (rand i 3).2 (runCheckpoint plan0.experiments[i] i 2 (rand i 2).1 (rand i 2).2 (runCheckpoint plan0.experiments[i] i 1 (rand i 1).1 (rand i 1).2 (runCheckpoint plan0.experiments[i] i 0 (rand i 0).1 (rand i 0).2 s))))))))).plan.experiments[p]? = none := by
          apply List.getElem?_eq_none
          omega
        have hp0 : plan0.experiments[p]? = none := by
          apply List.getElem?_eq_none
          omega
        rw [hs8, hp0]
      · by_cases hid : e0.id = (plan0.experiments[i]).id
        · rw [runBlock_getElem_eq plan0.experiments[i] i s hm (rand i 0).1 (rand i 0).2
            (rand i 1).1 (rand i 1).2 (rand i 2).1 (rand i 2).2 (rand i 3).1 (rand i 3).2
            (rand i 4).1 (rand i 4).2 (rand i 5).1 (rand i 5).2 (rand i 6).1 (rand i 6).2
            (rand i 7).1 (rand i 7).2 p e0 hsp hid]
          have hq := hpair p
          rw [hsp, Option.map_some'] at hq
          rw [Option.map_some']
          exact hq
        · rw [runBlock_getElem_ne plan0.experiments[i] i s hm (rand i 0).1 (rand i 0).2
            (rand i 1).1 (rand i 1).2 (rand i 2).1 (rand i 2).2 (rand i 3).1 (rand i 3).2
            (rand i 4).1 (rand i 4).2 (rand i 5).1 (rand i 5).2 (rand i 6).1 (rand i 6).2
            (rand i 7).1 (rand i 7).2 p e0 hsp hid]
          have hq := hpair p
          rw [hsp] at hq
          exact hq
    obtain ⟨ihlen, ihlow, ihhigh⟩ :=
      ih (i + 1) (offset + 800 + 1200 + 1000 + 1500 + 1200 + 1200 + 1500 + 500) _ hm8
        (by omega) hal8
    refine ⟨?_, ?_, ?_⟩
    · rw [ihlen]
      exact hlen8
    · intro p hp
      rw [ihlow p (by omega)]
      have hple : p < plan0.experiments.length := by omega
      have hp0 : plan0.experiments[p]? = some (plan0.experiments[p]) :=
        List.getElem?_eq_getElem hple
      obtain ⟨e0, hse0, hid0, _⟩ := hid_at p _ hp0
      have hne : ¬ e0.id = (plan0.experiments[i]).id := by
        rw [hid0]
        exact hid_ne p _ _ (by omega) hp0 hi
      rw [hse0]
      exact runBlock_getElem_ne plan0.experiments[i] i s hm (rand i 0).1 (rand i 0).2
        (rand i 1).1 (rand i 1).2 (rand i 2).1 (rand i 2).2 (rand i 3).1 (rand i 3).2
        (rand i 4).1 (rand i 4).2 (rand i 5).1 (rand i 5).2 (rand i 6).1 (rand i 6).2
        (rand i 7).1 (rand i 7).2 p e0 hse0 hne
    · intro p ep hip hp
      have hple : p < plan0.experiments.length := by
        by_contra hc
        rw [List.getElem?_eq_none (by omega)] at hp
        cases hp
      rcases Nat.eq_or_lt_of_le hip with heq | hlt
      · subst heq
        have hep : ep = plan0.experiments[i] := by
          rw [hi] at hp
          injection hp with h2
          exact h2.symm
        obtain ⟨e0, hse0, hid0, hsm0⟩ := hid_at i _ hi
        refine ⟨e0, hse0, ?_⟩
        rw [ihlow i (by omega), hep]
        exact runBlock_getElem_eq plan0.experiments[i] i s hm (rand i 0).1 (rand i 0).2
          (rand i 1).1 (rand i 1).2 (rand i 2).1 (rand i 2).2 (rand i 3).1 (rand i 3).2
          (rand i 4).1 (rand i 4).2 (rand i 5).1 (rand i 5).2 (rand i 6).1 (rand i 6).2
          (rand i 7).1 (rand i 7).2 i e0 hse0 hid0
      · obtain ⟨e1, hse1, hfin⟩ := ihhigh p ep (by omega) hp
        obtain ⟨e0, hse0, hid0, hsm0⟩ := hid_at p ep hp
        have hne : ¬ e0.id = (plan0.experiments[i]).id := by
          rw [hid0]
          exact hid_ne p ep _ (by omega) hp hi
        have hs8p : ((runCheckpoint plan0.experiments[i] i 7 (rand i 7).1 (rand i 7).2 (runCheckpoint plan0.experiments[i] i 6 (rand i 6).1 (rand i 6).2 (runCheckpoint plan0.experiments[i] i 5 (rand i 5).1 (rand i 5).2 (runCheckpoint plan0.experiments[i] i 4 (rand i 4).1 (rand i 4).2 (runCheckpoint plan0.experiments[i] i 3 (rand i 3).1 (rand i 3).2 (runCheckpoint plan0.experiments[i] i 2 (rand i 2).1 (rand i 2).2 (runCheckpoint plan0.experiments[i] i 1 (rand i 1).1 (rand i 1).2 (runCheckpoint plan0.experiments[i] i 0 (rand i 0).1 (rand i 0).2 s))))))))).plan.experiments[p]? = some e0 :=
          runBlock_getElem_ne plan0.experiments[i] i s hm (rand i 0).1 (rand i 0).2
            (rand i 1).1 (rand i 1).2 (rand i 2).1 (rand i 2).2 (rand i 3).1 (rand i 3).2
            (rand i 4).1 (rand i 4).2 (rand i 5).1 (rand i 5).2 (rand i 6).1 (rand i 6).2
            (rand i 7).1 (rand i 7).2 p e0 hse0 hne
        rw [hs8p] at hse1
        injection hse1 with h1
        refine ⟨e0, hse0, ?_⟩
        rw [h1]
        exact hfin


/-- C3: for every plan with pairwise-distinct experiment ids, running the
whole simulation leaves every experiment with progress 100, status
`completed`, and `liveMetrics` equal to its own `simulatedMetrics` exactly. -/
theorem terminal_live_equals_simulated (plan0 : ExperimentPlan) (rand : Nat → Nat → ℚ × ℚ)
    (s0 : SimState) (hm : s0.isMounted = true) (hp : s0.plan = plan0)
    (hnd : (plan0.experiments.map (fun e => e.id)).Nodup) :
    ∀ e ∈ (runSimulation plan0 rand s0).plan.experiments,
      e.progress = 100 ∧ e.status = ExpStatus.completed ∧
        e.liveMetrics = some e.simulatedMetrics := by
  intro e he
  have hms : (simStart s0).isMounted = true := hm
  have hps : (simStart s0).plan = plan0 := hp
  obtain ⟨hlen, _, hhigh⟩ :=
    execList_simScheduleAux plan0 rand hnd plan0.experiments.length 0 1500 (simStart s0)
      hms (by omega) (by rw [hps])
  rw [runSimulation, simSchedule] at he
  obtain ⟨p, hpe⟩ := List.mem_iff_getElem?.mp he
  have hple : p < plan0.experiments.length := by
    have h1 : p < (execList plan0 rand (simScheduleAux plan0.experiments.length 0 1500)
        (simStart s0)).plan.experiments.length := by
      by_contra hc
      rw [List.getElem?_eq_none (by omega)] at hpe
      cases hpe
    rw [hlen, hps] at h1
    exact h1
  have hp0 : plan0.experiments[p]? = some plan0.experiments[p] :=
    List.getElem?_eq_getElem hple
  obtain ⟨e0, hse0, hfin⟩ := hhigh p plan0.experiments[p] (Nat.zero_le p) hp0
  rw [hfin] at hpe
  injection hpe with h2
  have he0 : e0 = plan0.experiments[p] := by
    rw [hps] at hse0
    rw [hp0] at hse0
    injection hse0 with h3
    exact h3.symm
  rw [← h2, he0]
  exact ⟨rfl, rfl, rfl⟩

/-- C3 witness: in the two-experiment `samplePlan` run, the terminal form of
the first experiment is completed at progress 100 with live metrics equal to
its simulated metrics. -/
theorem terminal_live_equals_simulated_witness :
    (finalizeExp sampleExpA sampleExpA).progress = 100 ∧
    (finalizeExp sampleExpA sampleExpA).status = ExpStatus.completed ∧
    (finalizeExp sampleExpA sampleExpA).liveMetrics =
      some (finalizeExp sampleExpA sampleExpA).simulatedMetrics := by
  have h := terminal_live_equals_simulated samplePlan (fun _ _ => (0, 0)) sampleState rfl rfl
    (by simp [samplePlan, sampleExpA, sampleExpB])
  obtain ⟨_, _, hhigh⟩ :=
    execList_simScheduleAux samplePlan (fun _ _ => (0, 0))
      (by simp [samplePlan, sampleExpA, sampleExpB]) 2 0 1500 (simStart sampleState)
      rfl rfl rfl
  obtain ⟨e, hse, hfin⟩ := hhigh 0 sampleExpA (Nat.zero_le 0) rfl
  have he2 : some sampleExpA = some e := Eq.trans (by rfl) hse
  injection he2 with he3
  rw [← he3] at hfin
  exact h (finalizeExp sampleExpA sampleExpA) (List.mem_iff_getElem?.mpr ⟨0, hfin⟩)

/-- C4: once the effect cleanup has set `isMounted := false`, every
checkpoint callback, the finalize callback, the nested completion callback,
and hence any sequence of fired timers leave the state exactly unchanged: no
plan update, no log append, no status or phase change. -/
theorem cancelled_callbacks_noop (plan0 : ExperimentPlan) (rand : Nat → Nat → ℚ × ℚ)
    (s : SimState) (h : s.isMounted = false) :
    (∀ (exp : ExperimentModel) (i k : Nat) (ra rb : ℚ), runCheckpoint exp i k ra rb s = s) ∧
    runFinalize s = s ∧
    runFinalizeDone s = s ∧
    (∀ e : ScheduledTimeout, execEvent plan0 rand s e = s) ∧
    (∀ events : List ScheduledTimeout, execList plan0 rand events s = s) := by
  have hcp : ∀ (exp : ExperimentModel) (i k : Nat) (ra rb : ℚ),
      runCheckpoint exp i k ra rb s = s := by
    intro exp i k ra rb
    simp [runCheckpoint, h]
  have hfin : runFinalize s = s := by
    simp [runFinalize, h]
  have hdone : runFinalizeDone s = s := by
    simp [runFinalizeDone, h]
  have hev : ∀ e : ScheduledTimeout, execEvent plan0 rand s e = s := by
    intro e
    obtain ⟨t, kind⟩ := e
    cases kind with
    | checkpoint i k =>
      cases hx : plan0.experiments[i]? with
      | some exp => simp [execEvent, hx, hcp]
      | none => simp [execEvent, hx]
    | finalize =>
      simpa [execEvent] using hfin
  refine ⟨hcp, hfin, hdone, hev, ?_⟩
  intro events
  induction events with
  | nil => rfl
  | cons e t iht =>
    rw [execList_cons, hev e]
    exact iht

/-- C4 witness: on a cancelled state over `samplePlan`, the finalize callback
changes nothing. -/
theorem cancelled_callbacks_noop_witness :
    runFinalize cancelledState = cancelledState :=
  (cancelled_callbacks_noop samplePlan (fun _ _ => (0, 0)) cancelledState rfl).2.1

/-- C6: on a successful parse, `generateExperimentPlan` resolves to
`normalizePlan` of the parsed payload; the normalization keeps every
plan-level field and every parsed experiment field, and gives each experiment
exactly the defaults `status = pending`, `progress = 0` and
`liveMetrics = {0, 0, 0}`. -/
theorem normalize_adds_defaults (data : ParsedPlan) :
    (generateExperimentPlan (fun _ => AttemptOutcome.success data)).outcome
      = GenOutcome.ok (normalizePlan data) ∧
    (normalizePlan data).planTitle = data.planTitle ∧
    (normalizePlan data).goalAnalysis = data.goalAnalysis ∧
    (normalizePlan data).recommendedWinnerId = data.recommendedWinnerId ∧
    (normalizePlan data).summary = data.summary ∧
    (normalizePlan data).experiments.length = data.experiments.length ∧
    (∀ (p : Nat) (pe : ParsedExperiment), data.experiments[p]? = some pe →
      (normalizePlan data).experiments[p]? = some
        { id := pe.id, name := pe.name, description := pe.description
          simulatedMetrics := pe.simulatedMetrics
          status := ExpStatus.pending, progress := 0
          liveMetrics := some { accuracy := 0, latencyMs := 0, modelSizeMb := 0 } }) := by
  refine ⟨rfl, rfl, rfl, rfl, rfl, by simp [normalizePlan], ?_⟩
  intro p pe hpe
  show (data.experiments.map normalizeExperiment)[p]? = _
  rw [List.getElem?_map, hpe]
  rfl

/-- C6 witness: normalizing `sampleParsed` yields its first experiment with
the pending/zero defaults attached. -/
theorem normalize_adds_defaults_witness :
    (normalizePlan sampleParsed).experiments[0]? = some
      { id := "e1", name := "M1", description := "d1"
        simulatedMetrics := sampleMetricsA
        status := ExpStatus.pending, progress := 0
        liveMetrics := some { accuracy := 0, latencyMs := 0, modelSizeMb := 0 } } :=
  (normalize_adds_defaults sampleParsed).2.2.2.2.2.2 0 ⟨"e1", "M1", "d1", sampleMetricsA⟩ rfl

/-- C5 counterexample: a response whose experiments share the id `dup` and
whose first accuracy is 3/2 is resolved by `generateExperimentPlan`
unchanged: the claim that it never resolves to a Plan with duplicate ids or
out-of-range accuracies fails on the code, which performs no such
validation. -/
theorem gen_invalid_plan_cex :
    (generateExperimentPlan (fun _ => AttemptOutcome.success badParsed)).outcome
      = GenOutcome.ok (normalizePlan badParsed) ∧
    ¬ ((normalizePlan badParsed).experiments.map (fun e => e.id)).Nodup ∧
    ¬ (∀ e ∈ (normalizePlan badParsed).experiments,
        e.simulatedMetrics.accuracy ≤ 1) := by
  refine ⟨rfl, ?_, ?_⟩
  · have hids : (normalizePlan badParsed).experiments.map (fun e => e.id) =
        ["dup", "dup"] := rfl
    rw [hids]
    decide
  · intro hall
    have h : (3 : ℚ) / 2 ≤ 1 :=
      hall (normalizeExperiment ⟨"dup", "A", "first", ⟨3 / 2, 10, 5⟩⟩)
        (List.mem_cons_self _ _)
    norm_num at h

theorem normalizePlan_defaults (data : ParsedPlan) :
    ∀ e ∈ (normalizePlan data).experiments,
      e.status = ExpStatus.pending ∧ e.progress = 0 ∧
        e.liveMetrics = some { accuracy := 0, latencyMs := 0, modelSizeMb := 0 } := by
  intro e he
  have he2 : e ∈ data.experiments.map normalizeExperiment := he
  rcases List.mem_map.mp he2 with ⟨pe, _, hpe⟩
  rw [← hpe]
  exact ⟨rfl, rfl, rfl⟩

theorem genAux_ok_inv (results : Nat → AttemptOutcome) :
    ∀ (remaining attempt : Nat) (p : ExperimentPlan),
      (genAux results attempt remaining).outcome = GenOutcome.ok p →
      ∃ k data, attempt ≤ k ∧ k < attempt + remaining ∧
        results k = AttemptOutcome.success data ∧ p = normalizePlan data ∧
        (∀ j, attempt ≤ j → j < k → ∃ err, results j = AttemptOutcome.failure err) := by
  intro remaining
  induction remaining with
  | zero =>
    intro attempt p hp
    exact absurd hp (by simp [genAux])
  | succ rem ih =>
    intro attempt p hp
    rcases hres : results attempt with err | data
    · rcases Nat.eq_zero_or_pos rem with hrem | hrem
      · subst hrem
        rw [genAux_succ_failure_last results attempt err hres] at hp
        exact absurd hp (by simp)
      · obtain ⟨r2, rfl⟩ : ∃ r2, rem = r2 + 1 := ⟨rem - 1, by omega⟩
        rw [genAux_succ_failure_cont results attempt r2 err hres] at hp
        obtain ⟨k, d2, hk1, hk2, hs, hpe, hfail⟩ := ih (attempt + 1) p hp
        refine ⟨k, d2, by omega, by omega, hs, hpe, ?_⟩
        intro j hj1 hj2
        rcases Nat.eq_or_lt_of_le hj1 with hj | hlt
        · exact ⟨err, by rw [← hj]; exact hres⟩
        · exact hfail j (by omega) hj2
    · rw [genAux_succ_success results attempt rem data hres] at hp
      have hp2 : GenOutcome.ok (normalizePlan data) = GenOutcome.ok p := hp
      injection hp2 with h2
      exact ⟨attempt, data, le_rfl, by omega, hres, h2.symm,
        fun j hj1 hj2 => absurd hj2 (by omega)⟩

theorem genAux_allfail (results : Nat → AttemptOutcome) :
    ∀ (remaining attempt : Nat),
      (∀ k, attempt ≤ k → k < attempt + remaining →
        ∃ err, results k = AttemptOutcome.failure err) →
      1 ≤ remaining →
      ∃ err, results (attempt + remaining - 1) = AttemptOutcome.failure err ∧
        (genAux results attempt remaining).outcome = GenOutcome.error err := by
  intro remaining
  induction remaining with
  | zero =>
    intro attempt _ h1
    exact absurd h1 (by omega)
  | succ rem ih =>
    intro attempt hall _
    obtain ⟨err, herr⟩ := hall attempt le_rfl (by omega)
    rcases Nat.eq_zero_or_pos rem with hrem | hrem
    · subst hrem
      refine ⟨err, ?_, ?_⟩
      · have h2 : attempt + 1 - 1 = attempt := by omega
        rw [h2]
        exact herr
      · rw [genAux_succ_failure_last results attempt err herr]
    · obtain ⟨r2, rfl⟩ : ∃ r2, rem = r2 + 1 := ⟨rem - 1, by omega⟩
      obtain ⟨err2, herr2, hout⟩ :=
        ih (attempt + 1) (fun k hk1 hk2 => hall k (by omega) (by omega)) (by omega)
      refine ⟨err2, ?_, ?_⟩
      · have h2 : attempt + (r2 + 1 + 1) - 1 = attempt + 1 + (r2 + 1) - 1 := by omega
        rw [h2]
        exact herr2
      · rw [genAux_succ_failure_cont results attempt r2 err herr]
        exact hout

/-- C5 (amended): `generateExperimentPlan` resolves exactly when one of the
first four attempts parses, and then returns the parsed payload with the
pending/zero defaults added — with no validation of id uniqueness or
accuracy range; when every attempt fails it rejects with the last observed
error. -/
theorem gen_no_validation (results : Nat → AttemptOutcome) :
    (∀ p, (generateExperimentPlan results).outcome = GenOutcome.ok p →
      ∃ k data, k ≤ maxRetries ∧ results k = AttemptOutcome.success data ∧
        p = normalizePlan data ∧
        (∀ j, j < k → ∃ err, results j = AttemptOutcome.failure err) ∧
        (∀ e ∈ p.experiments, e.status = ExpStatus.pending ∧ e.progress = 0 ∧
          e.liveMetrics = some { accuracy := 0, latencyMs := 0, modelSizeMb := 0 })) ∧
    ((∀ k, k ≤ maxRetries → ∃ err, results k = AttemptOutcome.failure err) →
      ∃ err, results maxRetries = AttemptOutcome.failure err ∧
        (generateExperimentPlan results).outcome = GenOutcome.error err) := by
  constructor
  · intro p hp
    obtain ⟨k, data, _, hk2, hs, hpe, hfail⟩ :=
      genAux_ok_inv results (maxRetries + 1) 0 p hp
    have hk3 : k ≤ maxRetries := by omega
    subst hpe
    exact ⟨k, data, hk3, hs, rfl, fun j hj => hfail j (Nat.zero_le j) hj,
      normalizePlan_defaults data⟩
  · intro hall
    obtain ⟨err, herr, hout⟩ := genAux_allfail results (maxRetries + 1) 0
      (fun k hk1 hk2 => hall k (by omega)) (by omega)
    refine ⟨err, ?_, hout⟩
    have h2 : 0 + (maxRetries + 1) - 1 = maxRetries := by omega
    rwa [h2] at herr

/-- C5 witness: with every attempt failing, the call rejects with the last
error. -/
theorem gen_no_validation_witness :
    ∃ err, (fun _ : Nat => AttemptOutcome.failure ("boom")) maxRetries =
        AttemptOutcome.failure err ∧
      (generateExperimentPlan (fun _ => AttemptOutcome.failure ("boom"))).outcome =
        GenOutcome.error err :=
  (gen_no_validation (fun _ => AttemptOutcome.failure ("boom"))).2
    (fun k _ => ⟨("boom"), rfl⟩)

end LabLoop
